import Mathlib

/-!
Shallow embedding of the MCP tool servers in `src/mcp_servers/`:
`s3/s3_server.py` (storage tool handlers) and
`aurora_pg_data_api/aurora_pg_data_api_server.py` (SQL tool handler,
record formatting, startup configuration check).

Python conventions modelled explicitly:
- `args.get(k)` on a dict of optional string/bool arguments is an
  `Option` field (absent and explicit `None` both map to `Option.none`,
  which is how every handler treats them);
- Python truthiness of an optional string (`not x`) is `truthy`;
- a raised `McpError(code, msg)` is `HandlerResult.error code msg`;
- a raised non-MCP exception inside `format_records` is the `.error`
  branch of an `Except String` value carrying the exception text;
- calls made to the boto3 Service Adapter are recorded in the second
  component of each handler's result, so "the adapter records zero
  calls" is a statement about that list.
-/

deriving instance DecidableEq for Except

/-- The canonical error taxonomy (`ErrorCode` of the fastmcp import). -/
inductive ErrorCode where
  | InvalidParams
  | InvalidRequest
  | Timeout
  | PermissionDenied
  | NotFound
  | Unavailable
  | InternalError
deriving DecidableEq, Repr

/-- Python scalar values that flow through the Data API field dicts.
A float is carried opaquely by its 64-bit pattern: `format_records`
never computes with doubles, it only passes them through. -/
inductive PyVal where
  | pstr (s : String)
  | pint (n : Int)
  | pdouble (bits : Nat)
  | pbool (b : Bool)
  | pbytes (b : List UInt8)
  | pnone
deriving DecidableEq, Repr

/-- A Python dict with string keys in insertion order (distinct keys). -/
abbrev FieldDict := List (String × PyVal)

/-- Python truthiness of an optional string: `not x` is true exactly
when `x` is `None` or the empty string. -/
def truthy : Option String → Bool
  | Option.none => false
  | some s => !s.isEmpty

/-- Python truthiness of a `PyVal` (used for `field['isNull']`).
For a double, exactly the bit patterns of `0.0` and `-0.0` are falsy. -/
def pyTruthy : PyVal → Bool
  | PyVal.pstr s => !s.isEmpty
  | PyVal.pint n => n != 0
  | PyVal.pdouble bits => bits != 0 && bits != 2 ^ 63
  | PyVal.pbool b => b
  | PyVal.pbytes b => !b.isEmpty
  | PyVal.pnone => false

/-- Python `len` on a `PyVal`: defined for sized values, `Option.none`
models the `TypeError` raised otherwise. -/
def pyLen : PyVal → Option Nat
  | PyVal.pstr s => some s.length
  | PyVal.pbytes b => some b.length
  | _ => Option.none

/-- Dict lookup: `d[k]` / `k in d`. -/
def dictGet (d : FieldDict) (k : String) : Option PyVal :=
  (d.find? (fun p => p.1 == k)).map (fun p => p.2)

/-- Result of a handler: a returned dict or a raised `McpError`. -/
inductive HandlerResult (α : Type) where
  | ok (result : α)
  | error (code : ErrorCode) (message : String)
deriving DecidableEq, Repr

/-- A botocore `ClientError` as the S3 handlers consume it:
`e.response['Error']['Code']` and `e.response['Error']['Message']`. -/
structure ClientError where
  code : String
  message : String
deriving DecidableEq, Repr

/-- UTF-8 encoding of a Python string (`content.encode('utf-8')`). -/
def utf8Encode (s : String) : List UInt8 :=
  s.data.flatMap String.utf8EncodeChar

/-! ## S3 server (`src/mcp_servers/s3/s3_server.py`) -/

structure S3ObjectEntry where
  key : String
  size : Int
  last_modified : String
deriving DecidableEq, Repr

structure ListBucketsResult where
  buckets : List String
deriving DecidableEq, Repr

structure ListObjectsResult where
  objects : List S3ObjectEntry
deriving DecidableEq, Repr

structure GetObjectResult where
  content : String
  content_type : String
deriving DecidableEq, Repr

structure PutObjectResult where
  status : String
  version_id : Option String
deriving DecidableEq, Repr

structure DeleteObjectResult where
  status : String
  delete_marker : Option Bool
  version_id : Option String
deriving DecidableEq, Repr

/-- Outcome of the `list_buckets` boto3 call: the bucket names, or a
`ClientError`. -/
inductive ListBucketsOutcome where
  | ok (buckets : List String)
  | clientError (e : ClientError)
deriving DecidableEq, Repr

/-- Outcome of the `list_objects_v2` pagination: the collected object
entries (already converted, `lastModified` as its ISO string), or a
`ClientError`. -/
inductive ListObjectsOutcome where
  | ok (objects : List S3ObjectEntry)
  | clientError (e : ClientError)
deriving DecidableEq, Repr

/-- Outcome of the `get_object` boto3 call: a body that decoded as
UTF-8 text plus the optional `ContentType`, a `ClientError`, or a
`UnicodeDecodeError` while decoding the body. -/
inductive GetObjectOutcome where
  | ok (content : String) (contentType : Option String)
  | clientError (e : ClientError)
  | unicodeDecodeError
deriving DecidableEq, Repr

/-- Outcome of the `put_object` boto3 call. -/
inductive PutObjectOutcome where
  | ok (versionId : Option String)
  | clientError (e : ClientError)
deriving DecidableEq, Repr

/-- Outcome of the `delete_object` boto3 call. -/
inductive DeleteObjectOutcome where
  | ok (deleteMarker : Option Bool) (versionId : Option String)
  | clientError (e : ClientError)
deriving DecidableEq, Repr

structure ListObjectsArgs where
  bucket_name : Option String
  pfx : Option String
  max_keys : Option Int
deriving DecidableEq, Repr

structure GetObjectArgs where
  bucket_name : Option String
  key : Option String
deriving DecidableEq, Repr

structure PutObjectArgs where
  bucket_name : Option String
  key : Option String
  content : Option String
  content_type : Option String
deriving DecidableEq, Repr

structure DeleteObjectArgs where
  bucket_name : Option String
  key : Option String
deriving DecidableEq, Repr

/-- Arguments of one recorded `list_objects_v2` pagination. -/
structure ListObjectsCall where
  bucket : String
  pfx : String
  maxItems : Int
deriving DecidableEq, Repr

/-- Arguments of one recorded `get_object` call. -/
structure GetObjectCall where
  bucket : String
  key : String
deriving DecidableEq, Repr

/-- Arguments of one recorded `put_object` call; `body` is the UTF-8
encoding of the `content` argument. -/
structure PutObjectCall where
  bucket : String
  key : String
  body : List UInt8
  contentType : String
deriving DecidableEq, Repr

/-- Arguments of one recorded `delete_object` call. -/
structure DeleteObjectCall where
  bucket : String
  key : String
deriving DecidableEq, Repr

/-- `list_buckets_handler`: no validation (the tool has no required
fields); any `ClientError` becomes `InternalError`. The `Nat` counts
adapter calls. -/
def list_buckets_handler (outcome : ListBucketsOutcome) :
    HandlerResult ListBucketsResult × Nat :=
  match outcome with
  | ListBucketsOutcome.ok names => (HandlerResult.ok ⟨names⟩, 1)
  | ListBucketsOutcome.clientError e =>
      (HandlerResult.error ErrorCode.InternalError
        ("AWS S3 API Error: " ++ e.message), 1)

/-- `list_objects_handler`: rejects a missing or blank `bucket_name`
with `InvalidParams` before any adapter call; any `ClientError` becomes
`InternalError`. -/
def list_objects_handler (args : ListObjectsArgs)
    (outcome : ListObjectsOutcome) :
    HandlerResult ListObjectsResult × List ListObjectsCall :=
  if truthy args.bucket_name = false then
    (HandlerResult.error ErrorCode.InvalidParams
      "Missing required parameter: bucket_name", [])
  else
    let bucket := args.bucket_name.getD ""
    let call : ListObjectsCall :=
      ⟨bucket, args.pfx.getD "", args.max_keys.getD 1000⟩
    match outcome with
    | ListObjectsOutcome.ok objs => (HandlerResult.ok ⟨objs⟩, [call])
    | ListObjectsOutcome.clientError e =>
        (HandlerResult.error ErrorCode.InternalError
          ("AWS S3 API Error: " ++ e.message), [call])

/-- `get_object_handler`: rejects missing or blank `bucket_name`/`key`
with `InvalidParams`; a `ClientError` with code `NoSuchKey` becomes
`NotFound` with the `s3://bucket/key` message, any other `ClientError`
becomes `InternalError`, a `UnicodeDecodeError` becomes
`InternalError`. -/
def get_object_handler (args : GetObjectArgs) (outcome : GetObjectOutcome) :
    HandlerResult GetObjectResult × List GetObjectCall :=
  if truthy args.bucket_name = false ∨ truthy args.key = false then
    (HandlerResult.error ErrorCode.InvalidParams
      "Missing required parameters: bucket_name, key", [])
  else
    let bucket := args.bucket_name.getD ""
    let key := args.key.getD ""
    let call : GetObjectCall := ⟨bucket, key⟩
    match outcome with
    | GetObjectOutcome.ok content contentType =>
        (HandlerResult.ok ⟨content, contentType.getD "unknown"⟩, [call])
    | GetObjectOutcome.clientError e =>
        if e.code = "NoSuchKey" then
          (HandlerResult.error ErrorCode.NotFound
            ("Object not found: s3://" ++ bucket ++ "/" ++ key), [call])
        else
          (HandlerResult.error ErrorCode.InternalError
            ("AWS S3 API Error: " ++ e.message), [call])
    | GetObjectOutcome.unicodeDecodeError =>
        (HandlerResult.error ErrorCode.InternalError
          "Failed to decode object content as UTF-8. Object might be binary.",
          [call])

/-- `put_object_handler`: rejects a missing or blank `bucket_name` or
`key`, and a missing (`None`) `content` — but not a blank `content` —
with `InvalidParams`; the body sent is the UTF-8 encoding of `content`
and `content_type` defaults to `text/plain`; any `ClientError` becomes
`InternalError`. -/
def put_object_handler (args : PutObjectArgs) (outcome : PutObjectOutcome) :
    HandlerResult PutObjectResult × List PutObjectCall :=
  if truthy args.bucket_name = false ∨ truthy args.key = false
      ∨ args.content = Option.none then
    (HandlerResult.error ErrorCode.InvalidParams
      "Missing required parameters: bucket_name, key, content", [])
  else
    let bucket := args.bucket_name.getD ""
    let key := args.key.getD ""
    let content := args.content.getD ""
    let call : PutObjectCall :=
      ⟨bucket, key, utf8Encode content, args.content_type.getD "text/plain"⟩
    match outcome with
    | PutObjectOutcome.ok versionId =>
        (HandlerResult.ok ⟨"success", versionId⟩, [call])
    | PutObjectOutcome.clientError e =>
        (HandlerResult.error ErrorCode.InternalError
          ("AWS S3 API Error: " ++ e.message), [call])

/-- `delete_object_handler`: rejects missing or blank
`bucket_name`/`key` with `InvalidParams`; any `ClientError` becomes
`InternalError`. -/
def delete_object_handler (args : DeleteObjectArgs)
    (outcome : DeleteObjectOutcome) :
    HandlerResult DeleteObjectResult × List DeleteObjectCall :=
  if truthy args.bucket_name = false ∨ truthy args.key = false then
    (HandlerResult.error ErrorCode.InvalidParams
      "Missing required parameters: bucket_name, key", [])
  else
    let bucket := args.bucket_name.getD ""
    let key := args.key.getD ""
    let call : DeleteObjectCall := ⟨bucket, key⟩
    match outcome with
    | DeleteObjectOutcome.ok deleteMarker versionId =>
        (HandlerResult.ok ⟨"success", deleteMarker, versionId⟩, [call])
    | DeleteObjectOutcome.clientError e =>
        (HandlerResult.error ErrorCode.InternalError
          ("AWS S3 API Error: " ++ e.message), [call])

/-! ## Aurora PG Data API server
(`src/mcp_servers/aurora_pg_data_api/aurora_pg_data_api_server.py`) -/

/-- A decoded result row: a Python dict keyed by the column labels, in
insertion order. -/
abbrev Row := List (PyVal × PyVal)

/-- Assignment `row[key] = v` on a Python dict: updates the value in
place when the key exists, otherwise appends at the end. -/
def dictSet (d : Row) (k v : PyVal) : Row :=
  if d.any (fun p => p.1 == k) then
    d.map (fun p => if p.1 == k then (k, v) else p)
  else
    d ++ [(k, v)]

/-- The field-decoding branch chain of `format_records`, one field dict
to one scalar. The `elif` chain tests membership of each recognized tag
in order; `isNull` additionally requires a truthy value; the final
`else` reads `list(field.keys())[0]`, which raises `IndexError` on an
empty dict (the `Except.error` branch carries the exception text). A
`blobValue` whose payload has no `len` raises `TypeError`. -/
def decodeField (field : FieldDict) : Except String PyVal :=
  match dictGet field "stringValue" with
  | some v => Except.ok v
  | Option.none =>
  match dictGet field "longValue" with
  | some v => Except.ok v
  | Option.none =>
  match dictGet field "doubleValue" with
  | some v => Except.ok v
  | Option.none =>
  match dictGet field "booleanValue" with
  | some v => Except.ok v
  | Option.none =>
  match dictGet field "blobValue" with
  | some v =>
      (match pyLen v with
       | some n =>
           Except.ok (PyVal.pstr ("BLOB (length: " ++ toString n ++ ")"))
       | Option.none => Except.error "TypeError: object has no len")
  | Option.none =>
  match dictGet field "isNull" with
  | some v =>
      if pyTruthy v then Except.ok PyVal.pnone
      else
        (match field.head? with
         | some p => Except.ok (PyVal.pstr ("Unsupported type: " ++ p.1))
         | Option.none => Except.error "IndexError: list index out of range")
  | Option.none =>
      match field.head? with
      | some p => Except.ok (PyVal.pstr ("Unsupported type: " ++ p.1))
      | Option.none => Except.error "IndexError: list index out of range"

/-- The inner loop of `format_records` over one record:
`for i, field in enumerate(record): key = column_names[i]; row[key] = …`.
Reading `column_names[i]` past the end raises `IndexError`. -/
def formatRow (column_names : List PyVal) :
    Nat → Row → List FieldDict → Except String Row
  | _, row, [] => Except.ok row
  | i, row, field :: rest =>
      match column_names[i]? with
      | Option.none => Except.error "IndexError: list index out of range"
      | some key =>
          match decodeField field with
          | Except.error e => Except.error e
          | Except.ok v => formatRow column_names (i + 1) (dictSet row key v) rest

/-- Sequencing of a fallible map over a list, mirroring a Python loop
that raises on the first failing element. -/
def mapExcept (f : α → Except String β) : List α → Except String (List β)
  | [] => Except.ok []
  | a :: l =>
      match f a with
      | Except.error e => Except.error e
      | Except.ok b =>
          match mapExcept f l with
          | Except.error e => Except.error e
          | Except.ok bs => Except.ok (b :: bs)

/-- Reading `meta['label']`: a missing key raises `KeyError`. -/
def labelOf (meta : FieldDict) : Except String PyVal :=
  match dictGet meta "label" with
  | some v => Except.ok v
  | Option.none => Except.error "KeyError: label"

/-- `format_records(records, column_metadata)`: builds `column_names`
from each metadata entry's `label`, then decodes each record
positionally against it. Any raised exception surfaces as `.error`. -/
def format_records (records : List (List FieldDict))
    (column_metadata : List FieldDict) : Except String (List Row) :=
  match mapExcept labelOf column_metadata with
  | Except.error e => Except.error e
  | Except.ok column_names =>
      mapExcept (fun record => formatRow column_names 0 [] record) records

/-- Environment-derived configuration of the SQL server
(`CLUSTER_ARN`, `SECRET_ARN`, `DEFAULT_DATABASE_NAME`). -/
structure SqlConfig where
  clusterArn : String
  secretArn : String
  defaultDb : String
deriving DecidableEq, Repr

/-- Arguments of the `execute_sql` tool as the handler reads them. -/
structure ExecuteSqlArgs where
  sql_statement : Option String
  database_name : Option String
  include_result_metadata : Option Bool
  continue_after_timeout : Option Bool
  parameters : Option (List (String × FieldDict))
deriving DecidableEq, Repr

/-- One recorded `execute_statement` call (`params_to_pass`); the
`parameters` key is present only when the argument list is truthy
(present and non-empty). -/
structure ExecuteStatementCall where
  resourceArn : String
  secretArn : String
  database : String
  sql : String
  includeResultMetadata : Bool
  continueAfterTimeout : Bool
  parameters : Option (List (String × FieldDict))
deriving DecidableEq, Repr

/-- The Data API response the handler consumes: each key optional. -/
structure SqlResponse where
  numberOfRecordsUpdated : Option Int
  generatedFields : Option (List FieldDict)
  records : Option (List (List FieldDict))
  columnMetadata : Option (List FieldDict)
deriving DecidableEq, Repr

/-- Outcome of the `execute_statement` adapter call: a response, a
botocore `ClientError` whose code may be absent, or any other raised
exception. -/
inductive SqlOutcome where
  | ok (resp : SqlResponse)
  | clientError (code : Option String) (message : String)
  | otherError (message : String)
deriving DecidableEq, Repr

/-- The `records` part of a successful `execute_sql` result: formatted
rows when metadata was requested and present, the raw records
otherwise, or no `records` key at all. -/
inductive SqlRecords where
  | formatted (rows : List Row)
  | raw (records : List (List FieldDict))
  | absent
deriving DecidableEq, Repr

/-- A successful `execute_sql` result dict. -/
structure SqlResult where
  records_updated : Int
  generated_fields : List FieldDict
  column_metadata : Option (List FieldDict)
  records : SqlRecords
deriving DecidableEq, Repr

/-- The static `ClientError`-code table of `execute_sql_handler`. -/
def mapRdsErrorCode : Option String → ErrorCode
  | some "BadRequestException" => ErrorCode.InvalidRequest
  | some "StatementTimeoutException" => ErrorCode.Timeout
  | some "ForbiddenException" => ErrorCode.PermissionDenied
  | some "NotFoundException" => ErrorCode.NotFound
  | some "ServiceUnavailableError" => ErrorCode.Unavailable
  | _ => ErrorCode.InternalError

/-- The message attached to each translated `ClientError`. -/
def rdsErrorMessage (code : Option String) (msg : String) : String :=
  match code with
  | some "BadRequestException" => "RDS Data API Bad Request: " ++ msg
  | some "StatementTimeoutException" => "RDS Data API Statement Timeout: " ++ msg
  | some "ForbiddenException" => "RDS Data API Forbidden: " ++ msg
  | some "NotFoundException" => "RDS Data API Not Found (e.g., DB): " ++ msg
  | some "ServiceUnavailableError" => "RDS Data API Service Unavailable: " ++ msg
  | _ => "RDS Data API Error: " ++ msg

/-- Builds the success-path result dict from the response; a raised
exception inside `format_records` escapes as `.error`. -/
def buildResult (include_result_metadata : Bool) (resp : SqlResponse) :
    Except String SqlResult :=
  let base : SqlResult :=
    ⟨resp.numberOfRecordsUpdated.getD 0, resp.generatedFields.getD [],
      Option.none, SqlRecords.absent⟩
  match resp.records with
  | Option.none => Except.ok base
  | some recs =>
      if include_result_metadata then
        match resp.columnMetadata with
        | some cm =>
            (match format_records recs cm with
             | Except.ok rows =>
                 Except.ok { base with
                   column_metadata := some cm,
                   records := SqlRecords.formatted rows }
             | Except.error e => Except.error e)
        | Option.none => Except.ok { base with records := SqlRecords.raw recs }
      else
        Except.ok { base with records := SqlRecords.raw recs }

/-- `execute_sql_handler`: validates `sql_statement` (missing or blank
is `InvalidParams`, before any adapter call), records the
`execute_statement` call, translates `ClientError`s through the static
table, and turns any other exception — including one raised while
formatting records — into `InternalError`. -/
def execute_sql_handler (cfg : SqlConfig) (args : ExecuteSqlArgs)
    (outcome : SqlOutcome) :
    HandlerResult SqlResult × List ExecuteStatementCall :=
  if truthy args.sql_statement = false then
    (HandlerResult.error ErrorCode.InvalidParams
      "Missing required parameter: sql_statement", [])
  else
    let sql := args.sql_statement.getD ""
    let database := args.database_name.getD cfg.defaultDb
    let includeMeta := args.include_result_metadata.getD false
    let call : ExecuteStatementCall :=
      ⟨cfg.clusterArn, cfg.secretArn, database, sql, includeMeta,
        args.continue_after_timeout.getD false,
        match args.parameters with
        | some ps => if ps.isEmpty then Option.none else some ps
        | Option.none => Option.none⟩
    match outcome with
    | SqlOutcome.ok resp =>
        (match buildResult includeMeta resp with
         | Except.ok r => (HandlerResult.ok r, [call])
         | Except.error e =>
             (HandlerResult.error ErrorCode.InternalError
               ("Unexpected server error: " ++ e), [call]))
    | SqlOutcome.clientError code msg =>
        (HandlerResult.error (mapRdsErrorCode code) (rdsErrorMessage code msg),
          [call])
    | SqlOutcome.otherError msg =>
        (HandlerResult.error ErrorCode.InternalError
          ("Unexpected server error: " ++ msg), [call])

/-- Result of the module-level startup check: `sys.exit(1)` or the
module continuing to load and serve. -/
inductive StartupResult where
  | exited (code : Nat)
  | started
deriving DecidableEq, Repr

/-- The module-level configuration check of the SQL server:
`CLUSTER_ARN = os.environ.get("DB_CLUSTER_ARN")`,
`SECRET_ARN = os.environ.get("DB_SECRET_ARN")`, and
`if not CLUSTER_ARN or not SECRET_ARN: logger.error(...); sys.exit(1)`.
It runs once at import, before the server loop starts. -/
def startupCheck (clusterArn secretArn : Option String) : StartupResult :=
  if truthy clusterArn = false ∨ truthy secretArn = false then
    StartupResult.exited 1
  else
    StartupResult.started

/-- The error kind carried by a handler result, if any. -/
def resultKind : HandlerResult α → Option ErrorCode
  | HandlerResult.ok _ => Option.none
  | HandlerResult.error c _ => some c

/-! ## Helper lemmas -/

theorem truthy_some_iff (s : String) : truthy (some s) = true ↔ s ≠ "" := by
  constructor
  · intro h he
    subst he
    exact absurd h (by decide)
  · intro h
    show (!s.isEmpty) = true
    rw [Bool.not_eq_true', ← Bool.not_eq_true, String.isEmpty_iff]
    exact h

theorem truthy_some_of_ne (s : String) (h : s ≠ "") : truthy (some s) = true :=
  (truthy_some_iff s).mpr h

theorem mapExcept_error_of_mem {α β : Type} {f : α → Except String β}
    {l : List α} {a : α} (ha : a ∈ l) (he : ∃ e, f a = Except.error e) :
    ∃ e, mapExcept f l = Except.error e := by
  induction l with
  | nil => cases ha
  | cons b t ih =>
    rcases List.mem_cons.mp ha with h | h
    · subst h
      rcases he with ⟨e, hfe⟩
      exact ⟨e, by simp [mapExcept, hfe]⟩
    · cases hfb : f b with
      | error e' => exact ⟨e', by simp [mapExcept, hfb]⟩
      | ok bv =>
        rcases ih h with ⟨e2, hm⟩
        exact ⟨e2, by simp [mapExcept, hfb, hm]⟩

theorem mapExcept_ok_of_forall {α β : Type} {f : α → Except String β}
    {l : List α} (h : ∀ a ∈ l, ∃ b, f a = Except.ok b) :
    ∃ bs, mapExcept f l = Except.ok bs := by
  induction l with
  | nil => exact ⟨[], rfl⟩
  | cons a t ih =>
    rcases h a (List.mem_cons_self a t) with ⟨b, hb⟩
    rcases ih (fun x hx => h x (List.mem_cons_of_mem a hx)) with ⟨bs, hbs⟩
    exact ⟨b :: bs, by simp [mapExcept, hb, hbs]⟩

theorem mapExcept_ok_length {α β : Type} {f : α → Except String β} :
    ∀ {l : List α} {bs : List β}, mapExcept f l = Except.ok bs →
      bs.length = l.length := by
  intro l
  induction l with
  | nil =>
    intro bs h
    simp [mapExcept] at h
    simp [← h]
  | cons a t ih =>
    intro bs h
    simp only [mapExcept] at h
    cases hfa : f a with
    | error e => rw [hfa] at h; cases h
    | ok b =>
      rw [hfa] at h
      cases hmt : mapExcept f t with
      | error e => rw [hmt] at h; cases h
      | ok bt =>
        rw [hmt] at h
        cases h
        simp [ih hmt]

theorem formatRow_error_of_long (cn : List PyVal) :
    ∀ (rest : List FieldDict) (f : FieldDict) (i : Nat) (acc : Row),
      cn.length < i + (f :: rest).length →
      ∃ e, formatRow cn i acc (f :: rest) = Except.error e := by
  intro rest
  induction rest with
  | nil =>
    intro f i acc hlen
    cases hget : cn[i]? with
    | none =>
      exact ⟨"IndexError: list index out of range", by
        simp only [formatRow, hget]⟩
    | some key =>
      have hi : i < cn.length := (List.getElem?_eq_some.mp hget).1
      simp at hlen
      omega
  | cons f2 rest2 ih =>
    intro f i acc hlen
    cases hget : cn[i]? with
    | none =>
      exact ⟨"IndexError: list index out of range", by
        simp only [formatRow, hget]⟩
    | some key =>
      cases hdec : decodeField f with
      | error e => exact ⟨e, by simp only [formatRow, hget, hdec]⟩
      | ok v =>
        have hlen2 : cn.length < (i + 1) + (f2 :: rest2).length := by
          simp at hlen ⊢
          omega
        rcases ih f2 (i + 1) (dictSet acc key v) hlen2 with ⟨e, hrec⟩
        refine ⟨e, ?_⟩
        simp only [formatRow, hget, hdec]
        simpa only [formatRow] using hrec

theorem formatRow_ok_of_fits (cn : List PyVal) :
    ∀ (rec : List FieldDict) (i : Nat) (acc : Row),
      i + rec.length ≤ cn.length →
      (∀ f ∈ rec, ∃ v, decodeField f = Except.ok v) →
      ∃ row, formatRow cn i acc rec = Except.ok row := by
  intro rec
  induction rec with
  | nil => exact fun i acc _ _ => ⟨acc, rfl⟩
  | cons f rest ih =>
    intro i acc hlen hdec
    cases hget : cn[i]? with
    | none =>
      have := List.getElem?_eq_none_iff.mp hget
      simp at hlen
      omega
    | some key =>
      rcases hdec f (List.mem_cons_self f rest) with ⟨v, hv⟩
      have hlen2 : (i + 1) + rest.length ≤ cn.length := by
        simp at hlen
        omega
      rcases ih (i + 1) (dictSet acc key v)
          hlen2 (fun x hx => hdec x (List.mem_cons_of_mem f hx)) with ⟨row, hrow⟩
      refine ⟨row, ?_⟩
      simp only [formatRow, hget, hv]
      exact hrow

theorem format_records_error_of_long_row {recs : List (List FieldDict)}
    {cm : List FieldDict} {r : List FieldDict}
    (hr : r ∈ recs) (hlen : cm.length < r.length) :
    ∃ e, format_records recs cm = Except.error e := by
  unfold format_records
  cases hcn : mapExcept labelOf cm with
  | error e => exact ⟨e, rfl⟩
  | ok cn =>
    have hcnlen : cn.length = cm.length := mapExcept_ok_length hcn
    cases r with
    | nil => simp at hlen
    | cons f rest =>
      have : ∃ e, formatRow cn 0 [] (f :: rest) = Except.error e := by
        apply formatRow_error_of_long
        simpa [hcnlen] using hlen
      exact mapExcept_error_of_mem hr this

theorem format_records_ok_of {recs : List (List FieldDict)}
    {cm : List FieldDict}
    (hlab : ∀ m ∈ cm, ∃ v, labelOf m = Except.ok v)
    (hfit : ∀ r ∈ recs, r.length ≤ cm.length)
    (hdec : ∀ r ∈ recs, ∀ f ∈ r, ∃ v, decodeField f = Except.ok v) :
    ∃ rows, format_records recs cm = Except.ok rows := by
  unfold format_records
  rcases mapExcept_ok_of_forall hlab with ⟨cn, hcn⟩
  rw [hcn]
  have hcnlen : cn.length = cm.length := mapExcept_ok_length hcn
  apply mapExcept_ok_of_forall
  intro r hr
  apply formatRow_ok_of_fits cn r 0 []
  · simpa [hcnlen] using hfit r hr
  · exact hdec r hr

theorem decodeField_ok_of_ne_nil (field : FieldDict) (hne : field ≠ [])
    (hblob : ∀ v, dictGet field "blobValue" = some v → (pyLen v).isSome = true) :
    ∃ w, decodeField field = Except.ok w := by
  obtain ⟨p, t, rfl⟩ := List.exists_cons_of_ne_nil hne
  unfold decodeField
  cases h1 : dictGet (p :: t) "stringValue" with
  | some v => simp only [h1]; exact ⟨v, rfl⟩
  | none =>
  simp only [h1]
  cases h2 : dictGet (p :: t) "longValue" with
  | some v => simp only [h2]; exact ⟨v, rfl⟩
  | none =>
  simp only [h2]
  cases h3 : dictGet (p :: t) "doubleValue" with
  | some v => simp only [h3]; exact ⟨v, rfl⟩
  | none =>
  simp only [h3]
  cases h4 : dictGet (p :: t) "booleanValue" with
  | some v => simp only [h4]; exact ⟨v, rfl⟩
  | none =>
  simp only [h4]
  cases h5 : dictGet (p :: t) "blobValue" with
  | some v =>
    simp only [h5]
    have hv := hblob v h5
    cases hl : pyLen v with
    | some n => simp only [hl]; exact ⟨_, rfl⟩
    | none => rw [hl] at hv; cases hv
  | none =>
  simp only [h5]
  cases h6 : dictGet (p :: t) "isNull" with
  | some v =>
    simp only [h6]
    cases hv : pyTruthy v with
    | true => simp only [hv, if_true]; exact ⟨_, rfl⟩
    | false => simp only [hv, if_false, List.head?]; exact ⟨_, rfl⟩
  | none =>
    simp only [h6, List.head?]
    exact ⟨_, rfl⟩

theorem buildResult_error_of_format_error {resp : SqlResponse}
    {recs : List (List FieldDict)} {cm : List FieldDict} {e : String}
    (hrec : resp.records = some recs) (hcm : resp.columnMetadata = some cm)
    (hfe : format_records recs cm = Except.error e) :
    buildResult true resp = Except.error e := by
  unfold buildResult
  simp only [hrec, hcm, hfe, if_true]

theorem buildResult_ok_of_format_ok {resp : SqlResponse}
    {recs : List (List FieldDict)} {cm : List FieldDict} {rows : List Row}
    (hrec : resp.records = some recs) (hcm : resp.columnMetadata = some cm)
    (hf : format_records recs cm = Except.ok rows) :
    buildResult true resp =
      Except.ok ⟨resp.numberOfRecordsUpdated.getD 0,
        resp.generatedFields.getD [], some cm, SqlRecords.formatted rows⟩ := by
  unfold buildResult
  simp only [hrec, hcm, hf, if_true]

theorem execute_sql_ok_eval (cfg : SqlConfig) (args : ExecuteSqlArgs)
    (resp : SqlResponse) (h : truthy args.sql_statement = true) :
    (execute_sql_handler cfg args (SqlOutcome.ok resp)).1 =
      (match buildResult (args.include_result_metadata.getD false) resp with
       | Except.ok r => HandlerResult.ok r
       | Except.error e =>
           HandlerResult.error ErrorCode.InternalError
             ("Unexpected server error: " ++ e)) := by
  unfold execute_sql_handler
  rw [if_neg (by simp [h])]
  cases hb : buildResult (args.include_result_metadata.getD false) resp with
  | ok r => simp only [hb]
  | error e => simp only [hb]

theorem execute_sql_clientError_eval (cfg : SqlConfig) (args : ExecuteSqlArgs)
    (code : Option String) (msg : String)
    (h : truthy args.sql_statement = true) :
    (execute_sql_handler cfg args (SqlOutcome.clientError code msg)).1 =
      HandlerResult.error (mapRdsErrorCode code) (rdsErrorMessage code msg) := by
  unfold execute_sql_handler
  rw [if_neg (by simp [h])]

theorem execute_sql_otherError_eval (cfg : SqlConfig) (args : ExecuteSqlArgs)
    (msg : String) (h : truthy args.sql_statement = true) :
    (execute_sql_handler cfg args (SqlOutcome.otherError msg)).1 =
      HandlerResult.error ErrorCode.InternalError
        ("Unexpected server error: " ++ msg) := by
  unfold execute_sql_handler
  rw [if_neg (by simp [h])]

/-! ## Claims -/

/-- C1 counterexample: a `put_object` invocation whose required field
`content` is present but blank (the empty string) is not rejected with
`InvalidParams`; the handler calls the storage adapter once (with a
zero-byte body) and returns success, refuting the claim that every
blank required field yields `InvalidParams` with zero adapter calls. -/
theorem c1_blank_content_counterexample :
    put_object_handler ⟨some "b", some "k", some "", Option.none⟩
        (PutObjectOutcome.ok Option.none) =
      (HandlerResult.ok ⟨"success", Option.none⟩,
        [⟨"b", "k", [], "text/plain"⟩]) ∧
    (put_object_handler ⟨some "b", some "k", some "", Option.none⟩
        (PutObjectOutcome.ok Option.none)).2.length ≠ 0 ∧
    resultKind (put_object_handler ⟨some "b", some "k", some "", Option.none⟩
        (PutObjectOutcome.ok Option.none)).1 ≠ some ErrorCode.InvalidParams := by
  refine ⟨by decide, by decide, by decide⟩

/-- C1 (amended): for every tool, an args mapping that is missing a
required field — or supplies a blank (empty-string) value for one of
the required string fields `bucket_name`, `key`, `sql_statement` —
makes the handler produce an `InvalidParams` failure with no adapter
call; `put_object`'s required field `content` is rejected only when it
is absent (`None`), a blank `content` is accepted. `list_buckets` has
no required fields. -/
theorem c1_missing_or_blank_required_rejected :
    (∀ (args : ListObjectsArgs) (outcome : ListObjectsOutcome),
      truthy args.bucket_name = false →
      list_objects_handler args outcome =
        (HandlerResult.error ErrorCode.InvalidParams
          "Missing required parameter: bucket_name", [])) ∧
    (∀ (args : GetObjectArgs) (outcome : GetObjectOutcome),
      truthy args.bucket_name = false ∨ truthy args.key = false →
      get_object_handler args outcome =
        (HandlerResult.error ErrorCode.InvalidParams
          "Missing required parameters: bucket_name, key", [])) ∧
    (∀ (args : PutObjectArgs) (outcome : PutObjectOutcome),
      truthy args.bucket_name = false ∨ truthy args.key = false ∨
        args.content = Option.none →
      put_object_handler args outcome =
        (HandlerResult.error ErrorCode.InvalidParams
          "Missing required parameters: bucket_name, key, content", [])) ∧
    (∀ (args : DeleteObjectArgs) (outcome : DeleteObjectOutcome),
      truthy args.bucket_name = false ∨ truthy args.key = false →
      delete_object_handler args outcome =
        (HandlerResult.error ErrorCode.InvalidParams
          "Missing required parameters: bucket_name, key", [])) ∧
    (∀ (cfg : SqlConfig) (args : ExecuteSqlArgs) (outcome : SqlOutcome),
      truthy args.sql_statement = false →
      execute_sql_handler cfg args outcome =
        (HandlerResult.error ErrorCode.InvalidParams
          "Missing required parameter: sql_statement", [])) := by
  refine ⟨?_, ?_, ?_, ?_, ?_⟩
  · intro args outcome h
    unfold list_objects_handler
    rw [if_pos h]
  · intro args outcome h
    unfold get_object_handler
    rw [if_pos h]
  · intro args outcome h
    unfold put_object_handler
    rw [if_pos h]
  · intro args outcome h
    unfold delete_object_handler
    rw [if_pos h]
  · intro cfg args outcome h
    unfold execute_sql_handler
    rw [if_pos h]

/-- C1 witness: concrete instances of the amended claim — a missing
`bucket_name` on `list_objects`, a blank `bucket_name` on
`delete_object`, and a missing `content` on `put_object` are each
rejected with `InvalidParams` and an empty adapter-call list. -/
theorem c1_missing_or_blank_required_rejected_witness :
    list_objects_handler ⟨Option.none, Option.none, Option.none⟩
        (ListObjectsOutcome.ok []) =
      (HandlerResult.error ErrorCode.InvalidParams
        "Missing required parameter: bucket_name", []) ∧
    delete_object_handler ⟨some "", some "k"⟩
        (DeleteObjectOutcome.ok Option.none Option.none) =
      (HandlerResult.error ErrorCode.InvalidParams
        "Missing required parameters: bucket_name, key", []) ∧
    put_object_handler ⟨some "b", some "k", Option.none, Option.none⟩
        (PutObjectOutcome.ok Option.none) =
      (HandlerResult.error ErrorCode.InvalidParams
        "Missing required parameters: bucket_name, key, content", []) :=
  ⟨c1_missing_or_blank_required_rejected.1 ⟨Option.none, Option.none, Option.none⟩
      (ListObjectsOutcome.ok []) (by decide),
   c1_missing_or_blank_required_rejected.2.2.2.1 ⟨some "", some "k"⟩
      (DeleteObjectOutcome.ok Option.none Option.none) (Or.inl (by decide)),
   c1_missing_or_blank_required_rejected.2.2.1 ⟨some "b", some "k", Option.none, Option.none⟩
      (PutObjectOutcome.ok Option.none) (Or.inr (Or.inr rfl))⟩

/-- C2: every failure signal of the `execute_statement` adapter call
surfaces as the classified failure given by the static table —
`BadRequestException` to `InvalidRequest`, `StatementTimeoutException`
to `Timeout`, `ForbiddenException` to `PermissionDenied`,
`NotFoundException` to `NotFound`, `ServiceUnavailableError` to
`Unavailable`, any other `ClientError` code and any non-`ClientError`
exception to `InternalError` — always as a failure value carrying an
`ErrorCode`, never as an unclassified escape. -/
theorem c2_sql_error_translation :
    ∀ (cfg : SqlConfig) (args : ExecuteSqlArgs),
      truthy args.sql_statement = true →
      (∀ (code : Option String) (msg : String),
        (execute_sql_handler cfg args (SqlOutcome.clientError code msg)).1 =
          HandlerResult.error (mapRdsErrorCode code) (rdsErrorMessage code msg)) ∧
      mapRdsErrorCode (some "BadRequestException") = ErrorCode.InvalidRequest ∧
      mapRdsErrorCode (some "StatementTimeoutException") = ErrorCode.Timeout ∧
      mapRdsErrorCode (some "ForbiddenException") = ErrorCode.PermissionDenied ∧
      mapRdsErrorCode (some "NotFoundException") = ErrorCode.NotFound ∧
      mapRdsErrorCode (some "ServiceUnavailableError") = ErrorCode.Unavailable ∧
      (∀ (code : Option String),
        code ≠ some "BadRequestException" →
        code ≠ some "StatementTimeoutException" →
        code ≠ some "ForbiddenException" →
        code ≠ some "NotFoundException" →
        code ≠ some "ServiceUnavailableError" →
        mapRdsErrorCode code = ErrorCode.InternalError) ∧
      (∀ (msg : String),
        (execute_sql_handler cfg args (SqlOutcome.otherError msg)).1 =
          HandlerResult.error ErrorCode.InternalError
            ("Unexpected server error: " ++ msg)) ∧
      (∀ (code : Option String) (msg : String), ∃ (k : ErrorCode) (m : String),
        (execute_sql_handler cfg args (SqlOutcome.clientError code msg)).1 =
          HandlerResult.error k m) := by
  intro cfg args h
  refine ⟨fun code msg => execute_sql_clientError_eval cfg args code msg h,
    rfl, rfl, rfl, rfl, rfl, ?_, fun msg => execute_sql_otherError_eval cfg args msg h,
    fun code msg => ⟨mapRdsErrorCode code, rdsErrorMessage code msg,
      execute_sql_clientError_eval cfg args code msg h⟩⟩
  intro code h1 h2 h3 h4 h5
  unfold mapRdsErrorCode
  split
  · exact absurd rfl h1
  · exact absurd rfl h2
  · exact absurd rfl h3
  · exact absurd rfl h4
  · exact absurd rfl h5
  · rfl

/-- C2 witness: concrete instances — a `ForbiddenException` becomes
`PermissionDenied` and a non-`ClientError` exception becomes
`InternalError`. -/
theorem c2_sql_error_translation_witness :
    (execute_sql_handler ⟨"c", "s", "postgres"⟩
        ⟨some "SELECT 1", Option.none, Option.none, Option.none, Option.none⟩
        (SqlOutcome.clientError (some "ForbiddenException") "denied")).1 =
      HandlerResult.error ErrorCode.PermissionDenied
        "RDS Data API Forbidden: denied" ∧
    (execute_sql_handler ⟨"c", "s", "postgres"⟩
        ⟨some "SELECT 1", Option.none, Option.none, Option.none, Option.none⟩
        (SqlOutcome.otherError "boom")).1 =
      HandlerResult.error ErrorCode.InternalError
        "Unexpected server error: boom" :=
  ⟨((c2_sql_error_translation ⟨"c", "s", "postgres"⟩
      ⟨some "SELECT 1", Option.none, Option.none, Option.none, Option.none⟩
      rfl).1 (some "ForbiddenException") "denied").trans (by decide),
   (c2_sql_error_translation ⟨"c", "s", "postgres"⟩
      ⟨some "SELECT 1", Option.none, Option.none, Option.none, Option.none⟩
      rfl).2.2.2.2.2.2.2.1 "boom"⟩

/-- C3 counterexample: a `put_object` call whose adapter fails with the
permission error `AccessDenied` is classified `InternalError`, not
`PermissionDenied`, refuting the claim for the storage tool handlers. -/
theorem c3_storage_permission_counterexample :
    (put_object_handler ⟨some "b", some "k", some "x", Option.none⟩
        (PutObjectOutcome.clientError ⟨"AccessDenied", "denied"⟩)).1 =
      HandlerResult.error ErrorCode.InternalError "AWS S3 API Error: denied" ∧
    resultKind (put_object_handler ⟨some "b", some "k", some "x", Option.none⟩
        (PutObjectOutcome.clientError ⟨"AccessDenied", "denied"⟩)).1 ≠
      some ErrorCode.PermissionDenied := by
  refine ⟨by decide, by decide⟩

/-- C3 (amended): only the SQL handler maps a permission failure
(`ForbiddenException`) to `PermissionDenied`; every storage tool
handler classifies every adapter `ClientError` — including permission
failures such as `AccessDenied` — as `InternalError`, except
`get_object` on `NoSuchKey` which is `NotFound`. In all these cases
the failure surfaces as a classified failure value. -/
theorem c3_permission_denied_classification :
    (∀ (cfg : SqlConfig) (args : ExecuteSqlArgs) (msg : String),
      truthy args.sql_statement = true →
      (execute_sql_handler cfg args
          (SqlOutcome.clientError (some "ForbiddenException") msg)).1 =
        HandlerResult.error ErrorCode.PermissionDenied
          ("RDS Data API Forbidden: " ++ msg)) ∧
    (∀ (e : ClientError),
      (list_buckets_handler (ListBucketsOutcome.clientError e)).1 =
        HandlerResult.error ErrorCode.InternalError
          ("AWS S3 API Error: " ++ e.message)) ∧
    (∀ (args : ListObjectsArgs) (e : ClientError),
      truthy args.bucket_name = true →
      (list_objects_handler args (ListObjectsOutcome.clientError e)).1 =
        HandlerResult.error ErrorCode.InternalError
          ("AWS S3 API Error: " ++ e.message)) ∧
    (∀ (args : GetObjectArgs) (e : ClientError),
      truthy args.bucket_name = true → truthy args.key = true →
      e.code ≠ "NoSuchKey" →
      (get_object_handler args (GetObjectOutcome.clientError e)).1 =
        HandlerResult.error ErrorCode.InternalError
          ("AWS S3 API Error: " ++ e.message)) ∧
    (∀ (args : PutObjectArgs) (e : ClientError),
      truthy args.bucket_name = true → truthy args.key = true →
      args.content ≠ Option.none →
      (put_object_handler args (PutObjectOutcome.clientError e)).1 =
        HandlerResult.error ErrorCode.InternalError
          ("AWS S3 API Error: " ++ e.message)) ∧
    (∀ (args : DeleteObjectArgs) (e : ClientError),
      truthy args.bucket_name = true → truthy args.key = true →
      (delete_object_handler args (DeleteObjectOutcome.clientError e)).1 =
        HandlerResult.error ErrorCode.InternalError
          ("AWS S3 API Error: " ++ e.message)) := by
  refine ⟨?_, ?_, ?_, ?_, ?_, ?_⟩
  · intro cfg args msg h
    exact execute_sql_clientError_eval cfg args (some "ForbiddenException") msg h
  · intro e
    rfl
  · intro args e h
    unfold list_objects_handler
    rw [if_neg (by simp [h])]
  · intro args e hb hk hcode
    unfold get_object_handler
    rw [if_neg (by simp [hb, hk])]
    simp only [if_neg hcode]
  · intro args e hb hk hc
    unfold put_object_handler
    rw [if_neg (by simp [hb, hk, hc])]
  · intro args e hb hk
    unfold delete_object_handler
    rw [if_neg (by simp [hb, hk])]

/-- C3 witness: concrete instances — the SQL handler turns
`ForbiddenException` into `PermissionDenied`, and `list_objects` turns
`AccessDenied` into `InternalError`. -/
theorem c3_permission_denied_classification_witness :
    (execute_sql_handler ⟨"c", "s", "postgres"⟩
        ⟨some "SELECT 1", Option.none, Option.none, Option.none, Option.none⟩
        (SqlOutcome.clientError (some "ForbiddenException") "no")).1 =
      HandlerResult.error ErrorCode.PermissionDenied
        "RDS Data API Forbidden: no" ∧
    (list_objects_handler ⟨some "b", Option.none, Option.none⟩
        (ListObjectsOutcome.clientError ⟨"AccessDenied", "denied"⟩)).1 =
      HandlerResult.error ErrorCode.InternalError "AWS S3 API Error: denied" :=
  ⟨(c3_permission_denied_classification.1 ⟨"c", "s", "postgres"⟩
      ⟨some "SELECT 1", Option.none, Option.none, Option.none, Option.none⟩
      "no" rfl).trans (by decide),
   (c3_permission_denied_classification.2.2.1 ⟨some "b", Option.none, Option.none⟩
      ⟨"AccessDenied", "denied"⟩ rfl).trans (by decide)⟩

/-- C4 counterexample: a field whose dict is empty matches none of the
recognized tags, yet decoding it raises (`list(field.keys())[0]` is an
`IndexError`) instead of producing an `Unsupported type` marker, and
that exception aborts the whole `execute_sql` result — the sibling
field of the same row included — as an `InternalError`. -/
theorem c4_empty_field_counterexample :
    decodeField [] = Except.error "IndexError: list index out of range" ∧
    (execute_sql_handler ⟨"c", "s", "postgres"⟩
        ⟨some "SELECT 1", Option.none, some true, Option.none, Option.none⟩
        (SqlOutcome.ok ⟨Option.none, Option.none,
          some [[[("stringValue", PyVal.pstr "a")], []]],
          some [[("label", PyVal.pstr "x")], [("label", PyVal.pstr "y")]]⟩)).1 =
      HandlerResult.error ErrorCode.InternalError
        "Unexpected server error: IndexError: list index out of range" := by
  refine ⟨by decide, by decide⟩

/-- C4 (amended): a field whose dict is non-empty and matches none of
the recognized tags (`stringValue`, `longValue`, `doubleValue`,
`booleanValue`, `blobValue`, truthy `isNull`) decodes to the
`Unsupported type` marker naming the dict's first key, without a raised
failure; every non-empty field decodes without a raised failure (given
a sized `blobValue` payload); and a result set in which every field
decodes — unsupported-marker fields included — formats in full, so an
unrecognized field never aborts its siblings or the other rows. An
empty field dict, however, raises. -/
theorem c4_unrecognized_tag_marker :
    (∀ (k : String) (v : PyVal) (rest : FieldDict),
      dictGet ((k, v) :: rest) "stringValue" = Option.none →
      dictGet ((k, v) :: rest) "longValue" = Option.none →
      dictGet ((k, v) :: rest) "doubleValue" = Option.none →
      dictGet ((k, v) :: rest) "booleanValue" = Option.none →
      dictGet ((k, v) :: rest) "blobValue" = Option.none →
      (∀ w, dictGet ((k, v) :: rest) "isNull" = some w → pyTruthy w = false) →
      decodeField ((k, v) :: rest) =
        Except.ok (PyVal.pstr ("Unsupported type: " ++ k))) ∧
    (∀ (field : FieldDict), field ≠ [] →
      (∀ v, dictGet field "blobValue" = some v → (pyLen v).isSome = true) →
      ∃ w, decodeField field = Except.ok w) ∧
    (∀ (recs : List (List FieldDict)) (cm : List FieldDict),
      (∀ m ∈ cm, ∃ v, labelOf m = Except.ok v) →
      (∀ r ∈ recs, r.length ≤ cm.length) →
      (∀ r ∈ recs, ∀ f ∈ r, ∃ v, decodeField f = Except.ok v) →
      ∃ rows, format_records recs cm = Except.ok rows) := by
  refine ⟨?_, decodeField_ok_of_ne_nil, fun recs cm => format_records_ok_of⟩
  intro k v rest h1 h2 h3 h4 h5 h6
  unfold decodeField
  simp only [h1, h2, h3, h4, h5]
  cases h7 : dictGet ((k, v) :: rest) "isNull" with
  | some w =>
    simp [h7, h6 w h7, List.head?]
  | none =>
    simp [h7, List.head?]

/-- C4 witness: a singleton `arrayValue` field decodes to its marker,
and a row mixing a recognized field with an unrecognized one formats
in full. -/
theorem c4_unrecognized_tag_marker_witness :
    decodeField [("arrayValue", PyVal.pint 1)] =
      Except.ok (PyVal.pstr "Unsupported type: arrayValue") ∧
    (∃ rows, format_records
        [[[("longValue", PyVal.pint 7)], [("arrayValue", PyVal.pint 1)]]]
        [[("label", PyVal.pstr "a")], [("label", PyVal.pstr "b")]] =
      Except.ok rows) :=
  ⟨(c4_unrecognized_tag_marker.1 "arrayValue" (PyVal.pint 1) []
      rfl rfl rfl rfl rfl (fun w hw => Option.noConfusion hw)).trans (by decide),
   c4_unrecognized_tag_marker.2.2
      [[[("longValue", PyVal.pint 7)], [("arrayValue", PyVal.pint 1)]]]
      [[("label", PyVal.pstr "a")], [("label", PyVal.pstr "b")]]
      (by intro m hm; fin_cases hm <;> exact ⟨_, rfl⟩)
      (by intro r hr; fin_cases hr; decide)
      (by intro r hr; fin_cases hr; intro f hf; fin_cases hf <;> exact ⟨_, rfl⟩)⟩

/-- C5: a field reaching the `blobValue` branch with byte content `b`
decodes to the string placeholder `BLOB (length: N)` where `N` is the
byte length of `b`; the decoded value depends only on the length, and
it is never the raw bytes. -/
theorem c5_blob_placeholder :
    (∀ (field : FieldDict) (b : List UInt8),
      dictGet field "stringValue" = Option.none →
      dictGet field "longValue" = Option.none →
      dictGet field "doubleValue" = Option.none →
      dictGet field "booleanValue" = Option.none →
      dictGet field "blobValue" = some (PyVal.pbytes b) →
      decodeField field =
        Except.ok (PyVal.pstr ("BLOB (length: " ++ toString b.length ++ ")"))) ∧
    (∀ (b b' : List UInt8), b.length = b'.length →
      decodeField [("blobValue", PyVal.pbytes b)] =
        decodeField [("blobValue", PyVal.pbytes b')]) ∧
    (∀ (b : List UInt8),
      decodeField [("blobValue", PyVal.pbytes b)] ≠
        Except.ok (PyVal.pbytes b)) := by
  have main : ∀ (field : FieldDict) (b : List UInt8),
      dictGet field "stringValue" = Option.none →
      dictGet field "longValue" = Option.none →
      dictGet field "doubleValue" = Option.none →
      dictGet field "booleanValue" = Option.none →
      dictGet field "blobValue" = some (PyVal.pbytes b) →
      decodeField field =
        Except.ok (PyVal.pstr ("BLOB (length: " ++ toString b.length ++ ")")) := by
    intro field b h1 h2 h3 h4 h5
    unfold decodeField
    simp only [h1, h2, h3, h4, h5, pyLen]
  refine ⟨main, ?_, ?_⟩
  · intro b b' h
    rw [main [("blobValue", PyVal.pbytes b)] b rfl rfl rfl rfl rfl,
      main [("blobValue", PyVal.pbytes b')] b' rfl rfl rfl rfl rfl, h]
  · intro b h
    rw [main [("blobValue", PyVal.pbytes b)] b rfl rfl rfl rfl rfl] at h
    simp at h

/-- C5 witness: a three-byte blob decodes to `BLOB (length: 3)`. -/
theorem c5_blob_placeholder_witness :
    decodeField [("blobValue", PyVal.pbytes [1, 2, 3])] =
      Except.ok (PyVal.pstr "BLOB (length: 3)") :=
  (c5_blob_placeholder.1 [("blobValue", PyVal.pbytes [1, 2, 3])] [1, 2, 3]
    rfl rfl rfl rfl rfl).trans (by decide)

/-- C6 counterexample: a row SHORTER than the column metadata does not
make `execute_sql` fail with `InternalError` — it succeeds, silently
producing a partial row — refuting the claim for the shorter
direction. -/
theorem c6_short_row_counterexample :
    (execute_sql_handler ⟨"c", "s", "postgres"⟩
        ⟨some "SELECT 1", Option.none, some true, Option.none, Option.none⟩
        (SqlOutcome.ok ⟨Option.none, Option.none,
          some [[[("stringValue", PyVal.pstr "v")]]],
          some [[("label", PyVal.pstr "a")], [("label", PyVal.pstr "b")]]⟩)).1 =
      HandlerResult.ok ⟨0, [],
        some [[("label", PyVal.pstr "a")], [("label", PyVal.pstr "b")]],
        SqlRecords.formatted [[(PyVal.pstr "a", PyVal.pstr "v")]]⟩ ∧
    resultKind (execute_sql_handler ⟨"c", "s", "postgres"⟩
        ⟨some "SELECT 1", Option.none, some true, Option.none, Option.none⟩
        (SqlOutcome.ok ⟨Option.none, Option.none,
          some [[[("stringValue", PyVal.pstr "v")]]],
          some [[("label", PyVal.pstr "a")], [("label", PyVal.pstr "b")]]⟩)).1 ≠
      some ErrorCode.InternalError := by
  refine ⟨by decide, by decide⟩

/-- C6 (amended): when metadata formatting is active, a row LONGER
than the column metadata makes the `execute_sql` invocation fail with
`InternalError` (the out-of-range column lookup raised by
`format_records` is an adapter-contract violation caught by the
generic handler), while rows shorter than or equal to the metadata —
with decodable fields and well-formed labels — format successfully. -/
theorem c6_long_row_internal_error :
    (∀ (cfg : SqlConfig) (args : ExecuteSqlArgs) (resp : SqlResponse)
        (recs : List (List FieldDict)) (cm : List FieldDict)
        (r : List FieldDict),
      truthy args.sql_statement = true →
      args.include_result_metadata.getD false = true →
      resp.records = some recs →
      resp.columnMetadata = some cm →
      r ∈ recs → cm.length < r.length →
      ∃ m, (execute_sql_handler cfg args (SqlOutcome.ok resp)).1 =
        HandlerResult.error ErrorCode.InternalError m) ∧
    (∀ (cfg : SqlConfig) (args : ExecuteSqlArgs) (resp : SqlResponse)
        (recs : List (List FieldDict)) (cm : List FieldDict),
      truthy args.sql_statement = true →
      args.include_result_metadata.getD false = true →
      resp.records = some recs →
      resp.columnMetadata = some cm →
      (∀ m ∈ cm, ∃ v, labelOf m = Except.ok v) →
      (∀ r ∈ recs, r.length ≤ cm.length) →
      (∀ r ∈ recs, ∀ f ∈ r, ∃ v, decodeField f = Except.ok v) →
      ∃ res, (execute_sql_handler cfg args (SqlOutcome.ok resp)).1 =
        HandlerResult.ok res) := by
  constructor
  · intro cfg args resp recs cm r hsql hmeta hrec hcm hr hlen
    rcases format_records_error_of_long_row hr hlen with ⟨e, hfe⟩
    have hb : buildResult (args.include_result_metadata.getD false) resp =
        Except.error e := by
      rw [hmeta]
      exact buildResult_error_of_format_error hrec hcm hfe
    refine ⟨"Unexpected server error: " ++ e, ?_⟩
    rw [execute_sql_ok_eval cfg args resp hsql, hb]
  · intro cfg args resp recs cm hsql hmeta hrec hcm hlab hfit hdec
    rcases format_records_ok_of hlab hfit hdec with ⟨rows, hf⟩
    refine ⟨⟨resp.numberOfRecordsUpdated.getD 0, resp.generatedFields.getD [],
      some cm, SqlRecords.formatted rows⟩, ?_⟩
    rw [execute_sql_ok_eval cfg args resp hsql, hmeta,
      buildResult_ok_of_format_ok hrec hcm hf]

/-- C6 witness: a two-field row against one-column metadata yields an
`InternalError` failure. -/
theorem c6_long_row_internal_error_witness :
    ∃ m, (execute_sql_handler ⟨"c", "s", "postgres"⟩
        ⟨some "SELECT 1", Option.none, some true, Option.none, Option.none⟩
        (SqlOutcome.ok ⟨Option.none, Option.none,
          some [[[("stringValue", PyVal.pstr "a")],
                 [("stringValue", PyVal.pstr "b")]]],
          some [[("label", PyVal.pstr "x")]]⟩)).1 =
      HandlerResult.error ErrorCode.InternalError m :=
  c6_long_row_internal_error.1 ⟨"c", "s", "postgres"⟩
    ⟨some "SELECT 1", Option.none, some true, Option.none, Option.none⟩
    ⟨Option.none, Option.none,
      some [[[("stringValue", PyVal.pstr "a")],
             [("stringValue", PyVal.pstr "b")]]],
      some [[("label", PyVal.pstr "x")]]⟩
    [[[("stringValue", PyVal.pstr "a")], [("stringValue", PyVal.pstr "b")]]]
    [[("label", PyVal.pstr "x")]]
    [[("stringValue", PyVal.pstr "a")], [("stringValue", PyVal.pstr "b")]]
    rfl rfl rfl rfl (by decide) (by decide)

/-- C7 counterexample: with both environment variables present but the
cluster identifier set to the empty string, the process still exits —
refuting the claim that presence of both suffices for startup to
proceed (the check is on truthiness, not presence). -/
theorem c7_empty_env_counterexample :
    startupCheck (some "") (some "arn:secret") = StartupResult.exited 1 ∧
    startupCheck (some "") (some "arn:secret") ≠ StartupResult.started := by
  refine ⟨by decide, by decide⟩

/-- C7 (amended): the SQL server's module-level startup check exits
with status 1 when the cluster identifier or the secret identifier is
absent — or present but empty — and proceeds exactly when both are
present and non-empty; the check is the module-level conditional, run
once at import. -/
theorem c7_startup_requires_config :
    (∀ (secretArn : Option String),
      startupCheck Option.none secretArn = StartupResult.exited 1) ∧
    (∀ (clusterArn : Option String),
      startupCheck clusterArn Option.none = StartupResult.exited 1) ∧
    (∀ (c s : String), c ≠ "" → s ≠ "" →
      startupCheck (some c) (some s) = StartupResult.started) ∧
    (∀ (clusterArn secretArn : Option String),
      startupCheck clusterArn secretArn = StartupResult.started ↔
        truthy clusterArn = true ∧ truthy secretArn = true) := by
  refine ⟨?_, ?_, ?_, ?_⟩
  · intro s
    unfold startupCheck
    rw [if_pos (Or.inl (show truthy Option.none = false from rfl))]
  · intro c
    unfold startupCheck
    cases c with
    | none => rw [if_pos (Or.inl (show truthy Option.none = false from rfl))]
    | some s => rw [if_pos (Or.inr (show truthy Option.none = false from rfl))]
  · intro c s hc hs
    unfold startupCheck
    rw [if_neg]
    rintro (h | h)
    · rw [truthy_some_of_ne c hc] at h
      cases h
    · rw [truthy_some_of_ne s hs] at h
      cases h
  · intro c s
    unfold startupCheck
    constructor
    · intro h
      split at h
      · cases h
      · next hcond =>
        push_neg at hcond
        exact ⟨Bool.ne_false_iff.mp hcond.1, Bool.ne_false_iff.mp hcond.2⟩
    · rintro ⟨h1, h2⟩
      rw [if_neg]
      rintro (h | h)
      · rw [h1] at h
        cases h
      · rw [h2] at h
        cases h

/-- C7 witness: a missing cluster identifier exits with 1, and two
non-empty identifiers let startup proceed. -/
theorem c7_startup_requires_config_witness :
    startupCheck Option.none (some "arn:secret") = StartupResult.exited 1 ∧
    startupCheck (some "arn:cluster") (some "arn:secret") =
      StartupResult.started :=
  ⟨c7_startup_requires_config.1 (some "arn:secret"),
   c7_startup_requires_config.2.2.1 "arn:cluster" "arn:secret"
     (by decide) (by decide)⟩

/-- C8: for every `get_object` invocation with non-blank `bucket_name`
and `key` whose adapter call fails with the `NoSuchKey` code, the
result is a `NotFound` failure with message
`Object not found: s3://bucket/key`. -/
theorem c8_get_object_not_found :
    ∀ (b k : String) (args : GetObjectArgs) (e : ClientError),
      args.bucket_name = some b → b ≠ "" →
      args.key = some k → k ≠ "" →
      e.code = "NoSuchKey" →
      get_object_handler args (GetObjectOutcome.clientError e) =
        (HandlerResult.error ErrorCode.NotFound
          ("Object not found: s3://" ++ b ++ "/" ++ k), [⟨b, k⟩]) := by
  intro b k args e hb hbne hk hkne hcode
  unfold get_object_handler
  rw [if_neg (by
    rw [hb, hk, truthy_some_of_ne b hbne, truthy_some_of_ne k hkne]
    rintro (h | h) <;> cases h)]
  simp [hb, hk, hcode]

/-- C8 witness: the end-to-end scenario of the spec — bucket `b`, key
`missing`, a no-such-key adapter failure — yields `NotFound` with
message `Object not found: s3://b/missing`. -/
theorem c8_get_object_not_found_witness :
    get_object_handler ⟨some "b", some "missing"⟩
        (GetObjectOutcome.clientError ⟨"NoSuchKey", "x"⟩) =
      (HandlerResult.error ErrorCode.NotFound
        "Object not found: s3://b/missing", [⟨"b", "missing"⟩]) :=
  (c8_get_object_not_found "b" "missing" ⟨some "b", some "missing"⟩
    ⟨"NoSuchKey", "x"⟩ rfl (by decide) rfl (by decide) rfl).trans (by rfl)

/-- C9 counterexample: a field containing `isNull` mapped to `False`
and no other recognized tag, but with another (unrecognized) key first,
decodes to a marker naming that first key — not `Unsupported type:
isNull` as claimed. -/
theorem c9_first_key_counterexample :
    decodeField [("arrayValue", PyVal.pnone), ("isNull", PyVal.pbool false)] =
      Except.ok (PyVal.pstr "Unsupported type: arrayValue") ∧
    decodeField [("arrayValue", PyVal.pnone), ("isNull", PyVal.pbool false)] ≠
      Except.ok (PyVal.pstr "Unsupported type: isNull") ∧
    decodeField [("arrayValue", PyVal.pnone), ("isNull", PyVal.pbool false)] ≠
      Except.ok PyVal.pnone := by
  refine ⟨by decide, by decide, by decide⟩

/-- C9 (amended): a field whose dict holds `isNull` with a falsy value
and no recognized tag does not decode to null — it falls through to
the `Unsupported type` marker naming the dict's FIRST key, which is
`Unsupported type: isNull` exactly when `isNull` is the first key; on
that branch (no recognized tag before `isNull`), the decode yields
null exactly when the `isNull` value is truthy. -/
theorem c9_isnull_false_falls_through :
    (∀ (field : FieldDict) (k : String) (v w : PyVal) (rest : FieldDict),
      field = (k, v) :: rest →
      dictGet field "stringValue" = Option.none →
      dictGet field "longValue" = Option.none →
      dictGet field "doubleValue" = Option.none →
      dictGet field "booleanValue" = Option.none →
      dictGet field "blobValue" = Option.none →
      dictGet field "isNull" = some w →
      pyTruthy w = false →
      decodeField field = Except.ok (PyVal.pstr ("Unsupported type: " ++ k)) ∧
      decodeField field ≠ Except.ok PyVal.pnone) ∧
    (∀ (field : FieldDict) (w : PyVal),
      dictGet field "stringValue" = Option.none →
      dictGet field "longValue" = Option.none →
      dictGet field "doubleValue" = Option.none →
      dictGet field "booleanValue" = Option.none →
      dictGet field "blobValue" = Option.none →
      dictGet field "isNull" = some w →
      (decodeField field = Except.ok PyVal.pnone ↔ pyTruthy w = true)) ∧
    decodeField [("isNull", PyVal.pbool false)] =
      Except.ok (PyVal.pstr "Unsupported type: isNull") := by
  refine ⟨?_, ?_, by decide⟩
  · intro field k v w rest hfield h1 h2 h3 h4 h5 h6 h7
    subst hfield
    have hmain : decodeField ((k, v) :: rest) =
        Except.ok (PyVal.pstr ("Unsupported type: " ++ k)) := by
      unfold decodeField
      simp [h1, h2, h3, h4, h5, h6, h7, List.head?]
    refine ⟨hmain, ?_⟩
    rw [hmain]
    simp
  · intro field w h1 h2 h3 h4 h5 h6
    cases field with
    | nil => cases h6
    | cons p t =>
      unfold decodeField
      simp only [h1, h2, h3, h4, h5, h6]
      cases hw : pyTruthy w with
      | true => simp [hw]
      | false => simp [hw, List.head?]

/-- C9 witness: the singleton dict with `isNull` mapped to `False`
decodes to the marker naming `isNull`, and is not null. -/
theorem c9_isnull_false_falls_through_witness :
    decodeField [("isNull", PyVal.pbool false)] =
      Except.ok (PyVal.pstr "Unsupported type: isNull") ∧
    decodeField [("isNull", PyVal.pbool false)] ≠ Except.ok PyVal.pnone :=
  ⟨(c9_isnull_false_falls_through.1 [("isNull", PyVal.pbool false)]
      "isNull" (PyVal.pbool false) (PyVal.pbool false) []
      rfl rfl rfl rfl rfl rfl rfl rfl).1.trans (by rfl),
   (c9_isnull_false_falls_through.1 [("isNull", PyVal.pbool false)]
      "isNull" (PyVal.pbool false) (PyVal.pbool false) []
      rfl rfl rfl rfl rfl rfl rfl rfl).2⟩

/-- C10: a `put_object` invocation with non-blank `bucket_name` and
`key` and a blank (empty-string) `content` passes validation, calls
the storage adapter exactly once with a zero-byte body (and the
default `text/plain` content type unless overridden), and reports
success; `content` is rejected as `InvalidParams` only when absent. -/
theorem c10_put_blank_content_accepted :
    (∀ (b k : String) (ct : Option String) (vid : Option String),
      b ≠ "" → k ≠ "" →
      put_object_handler ⟨some b, some k, some "", ct⟩
          (PutObjectOutcome.ok vid) =
        (HandlerResult.ok ⟨"success", vid⟩,
          [⟨b, k, [], ct.getD "text/plain"⟩])) ∧
    (∀ (args : PutObjectArgs) (outcome : PutObjectOutcome),
      args.content = Option.none →
      put_object_handler args outcome =
        (HandlerResult.error ErrorCode.InvalidParams
          "Missing required parameters: bucket_name, key, content", [])) := by
  constructor
  · intro b k ct vid hb hk
    unfold put_object_handler
    rw [if_neg (by
      rw [truthy_some_of_ne b hb, truthy_some_of_ne k hk]
      rintro (h | h | h) <;> cases h)]
    rfl
  · intro args outcome h
    unfold put_object_handler
    rw [if_pos (Or.inr (Or.inr h))]

/-- C10 witness: bucket `b`, key `k`, blank content — the adapter is
called once with an empty body and the handler reports success. -/
theorem c10_put_blank_content_accepted_witness :
    put_object_handler ⟨some "b", some "k", some "", Option.none⟩
        (PutObjectOutcome.ok (some "v1")) =
      (HandlerResult.ok ⟨"success", some "v1"⟩,
        [⟨"b", "k", [], "text/plain"⟩]) :=
  (c10_put_blank_content_accepted.1 "b" "k" Option.none (some "v1")
    (by decide) (by decide)).trans (by rfl)
